import Mathlib

/-!
Shallow embedding of the ShelfEye tool-tracking pipeline (src/python) for
specification checking.

The embedding translates the pure decision logic of the Python sources:
* `determine_status`   — src/python/process_cameras.py, SlotProcessor.determine_status
* `process_slot`       — src/python/camera_manager.py, CameraManager.process_slot
                         (the classification core; file I/O and image capture are
                         represented by a `SlotScan` record of the values the
                         external world returns)
* `validate_qr_data`, `verify_hmac_signature`, `detect_qr_codes`
                       — src/python/qr_detector.py (the HMAC primitive itself is an
                         external library call and is passed in as a function)
* `calculate_homography`, `calibrate_from_camera_decision`
                       — src/python/aruco_calibrator.py (cv2.findHomography is an
                         external solver and is passed in as a function)
* `generate_rectified_warp`, `rectify_image_warp`, `validate_slot_qrs_warp`
                       — the perspective-warp invocations of
                         src/python/rectified_preview.py, camera_manager.py and
                         validate_slot_qrs.py
* `overall_status`, `main_exit_code`
                       — src/python/process_cameras.py, CameraProcessor.process_all
                         and main

Python floats are modelled as rationals (ℚ); the numeric literals of the source
(0.8, 0.7, 5.0, 29.7 …) are exact decimals, so this is faithful.
-/

/-- A JSON scalar value as it occurs inside the flat QR payload dictionaries of
the source (string or integer fields only). -/
inductive JVal where
  | s (v : String)
  | n (v : Int)
deriving DecidableEq, Repr

/-- Python `dict.get(k)` on a payload dictionary, modelled over an association
list with distinct keys: the value at the first matching key, or `none`. -/
def lookupField (p : List (String × JVal)) (k : String) : Option JVal :=
  (p.find? (fun kv => kv.1 == k)).map Prod.snd

/-- Python `k in dict`. -/
def hasKey (p : List (String × JVal)) (k : String) : Bool :=
  (lookupField p k).isSome

/-- SlotProcessor.determine_status (src/python/process_cameras.py lines 149-183).
Input `none` covers both a falsy `qr_data` (no QR decoded) and a failed JSON
parse, which the source maps to the same result; `some qr_json` is the parsed
payload dictionary, with the empty dictionary (falsy in Python) checked first
exactly as `if not qr_json` does.  Returns (status, alert_triggered, worker_name). -/
def determine_status (qr_data : Option (List (String × JVal))) :
    String × Bool × Option JVal :=
  match qr_data with
  | none => ("ITEM_PRESENT", false, none)
  | some qr_json =>
    if qr_json = [] then ("ITEM_PRESENT", false, none)
    else if lookupField qr_json "type" = some (JVal.s "worker") then
      ("CHECKED_OUT", false,
        some ((lookupField qr_json "worker_name").getD (JVal.s "Unknown")))
    else if lookupField qr_json "type" = some (JVal.s "slot") then
      ("EMPTY", true, none)
    else
      ("ITEM_PRESENT", false, none)

/-- Everything the external world (file system, image decoding, OpenCV, SSIM)
hands to CameraManager.process_slot during one slot evaluation.  `qr_results`
is the list of decoded, validated payloads returned by
QRDetector.detect_qr_codes; `s_empty_score` / `s_full_score` are the SSIM
scores that compare_images would return for the respective baselines. -/
structure SlotScan where
  roiOk : Bool
  qr_results : List (List (String × JVal))
  emptyBaselineExists : Bool
  emptyBaselineLoaded : Bool
  s_empty_score : ℚ
  fullBaselineExists : Bool
  fullBaselineLoaded : Bool
  s_full_score : ℚ
  laplacianVar : ℚ
deriving Repr

/-- The result dictionary built by CameraManager.process_slot
(src/python/camera_manager.py lines 113-125), without the image-path fields,
which are pure file I/O. -/
structure CMSlotResult where
  status : String
  present : Bool
  correct_item : Bool
  s_empty : ℚ
  s_full : ℚ
  pose_quality : ℚ
  qr_id : Option JVal
  worker_name : Option JVal
  alert_triggered : Bool
deriving DecidableEq, Repr

/-- The initial result dictionary of process_slot (all defaults). -/
def initSlotResult : CMSlotResult :=
  ⟨"UNCERTAIN", false, false, 0, 0, 0, none, none, false⟩

/-- CameraManager.process_slot (src/python/camera_manager.py lines 105-212),
restricted to its pure decision content.  `expectedQr` is
`slot_config.get('expectedQr')` (absent key gives `none`, and Python's
`None == None` is mirrored by equality on `Option JVal`).  A failed ROI
extraction returns the initial result unchanged, as the source does. -/
def process_slot (expectedQr : Option JVal) (scan : SlotScan) : CMSlotResult :=
  if !scan.roiOk then initSlotResult
  else
    let r1 :=
      match scan.qr_results with
      | qr_data :: _ =>
        let rq := { initSlotResult with qr_id := lookupField qr_data "id" }
        if lookupField qr_data "type" = some (JVal.s "worker") then
          { rq with status := "CHECKED_OUT",
                    worker_name := lookupField qr_data "worker_name",
                    present := true }
        else if lookupField qr_data "id" = expectedQr then
          { rq with status := "ITEM_PRESENT", present := true, correct_item := true }
        else
          { rq with status := "ITEM_PRESENT", present := true, correct_item := false }
      | [] =>
        let ra :=
          if scan.emptyBaselineExists then
            let rs :=
              if scan.emptyBaselineLoaded then
                { initSlotResult with s_empty := scan.s_empty_score }
              else initSlotResult
            if rs.s_empty > 4/5 then
              { rs with status := "EMPTY", present := false }
            else
              { rs with status := "OCCUPIED_NO_QR", present := true,
                        alert_triggered := true }
          else { initSlotResult with status := "UNCALIBRATED_EMPTY" }
        if scan.fullBaselineExists && ra.present then
          if scan.fullBaselineLoaded then
            let rb := { ra with s_full := scan.s_full_score }
            { rb with correct_item := rb.s_full > 7/10 }
          else ra
        else ra
    { r1 with pose_quality := min 200 scan.laplacianVar }


/-! ## QR payload validation (src/python/qr_detector.py) -/

/-- Render one JSON scalar the way `json.dumps` does for the flat payloads in
use (strings quoted, integers in decimal). -/
def renderJVal : JVal → String
  | JVal.s v => "\"" ++ v ++ "\""
  | JVal.n v => toString v

/-- Render one key/value pair with the default `json.dumps` separator. -/
def renderPair (kv : String × JVal) : String :=
  "\"" ++ kv.1 ++ "\": " ++ renderJVal kv.2

/-- Insert a pair into a key-sorted list (helper for `sortByKey`). -/
def insortKey (kv : String × JVal) :
    List (String × JVal) → List (String × JVal)
  | [] => [kv]
  | x :: xs => if x.1 < kv.1 then x :: insortKey kv xs else kv :: x :: xs

/-- Sort a payload dictionary by key, as `json.dumps(..., sort_keys=True)`
iterates it. -/
def sortByKey : List (String × JVal) → List (String × JVal)
  | [] => []
  | x :: xs => insortKey x (sortByKey xs)

/-- Comma-join rendered pairs. -/
def joinComma : List String → String
  | [] => ""
  | [a] => a
  | a :: rest => a ++ ", " ++ joinComma rest

/-- `json.dumps(d, sort_keys=True)` for a flat payload dictionary. -/
def canonical_json (p : List (String × JVal)) : String :=
  "\x7b" ++ joinComma ((sortByKey p).map renderPair) ++ "\x7d"

/-- Python `{k: v for k, v in d.items() if k != key}` / `dict.pop` effect on the
remaining fields. -/
def removeKey (p : List (String × JVal)) (k : String) : List (String × JVal) :=
  p.filter (fun kv => !(kv.1 == k))

/-- QRDetector._verify_hmac_signature (src/python/qr_detector.py lines 117-144).
The HMAC-SHA256 primitive `mac` (message ↦ hex digest under the secret key) is
an external library call and is passed in.  The source pops the `hmac` field,
serializes the rest with sorted keys, recomputes the digest and compares; a
non-string `hmac` value makes `hmac.compare_digest` raise, which the
surrounding `except` turns into `False`. -/
def verify_hmac_signature (mac : String → String)
    (qr_data : List (String × JVal)) : Bool :=
  match lookupField qr_data "hmac" with
  | some (JVal.s provided) =>
      mac (canonical_json (removeKey qr_data "hmac")) == provided
  | some (JVal.n _) => false
  | none => false

/-- The required structural fields of a payload
(src/python/qr_detector.py line 98). -/
def required_fields : List String := ["type", "id", "version", "ts"]

/-- QRDetector._validate_qr_data (src/python/qr_detector.py lines 94-115):
require the structural fields, require `type ∈ {slot, worker}`, and verify the
HMAC only when an `hmac` field is present. -/
def validate_qr_data (mac : String → String)
    (qr_data : List (String × JVal)) : Bool :=
  if required_fields.all (fun f => hasKey qr_data f) then
    if lookupField qr_data "type" = some (JVal.s "slot") ∨
       lookupField qr_data "type" = some (JVal.s "worker") then
      if hasKey qr_data "hmac" then verify_hmac_signature mac qr_data
      else true
    else false
  else false

/-- The validation/filter stage of QRDetector.detect_qr_codes
(src/python/qr_detector.py lines 22-53): of the candidate payloads decoded by
the external barcode library, exactly those passing `_validate_qr_data` are
returned. -/
def detect_qr_codes (mac : String → String)
    (decoded : List (List (String × JVal))) : List (List (String × JVal)) :=
  decoded.filter (validate_qr_data mac)

/-! ## Homography calibration (src/python/aruco_calibrator.py) -/

/-- A 2-D point (pixel or cm coordinates). -/
structure Pt where
  x : ℚ
  y : ℚ
deriving DecidableEq, Repr

/-- A 3×3 matrix over ℚ, row major. -/
structure Mat3 where
  m00 : ℚ
  m01 : ℚ
  m02 : ℚ
  m10 : ℚ
  m11 : ℚ
  m12 : ℚ
  m20 : ℚ
  m21 : ℚ
  m22 : ℚ
deriving DecidableEq, Repr

/-- Matrix product. -/
def mul3 (A B : Mat3) : Mat3 :=
  ⟨A.m00 * B.m00 + A.m01 * B.m10 + A.m02 * B.m20,
   A.m00 * B.m01 + A.m01 * B.m11 + A.m02 * B.m21,
   A.m00 * B.m02 + A.m01 * B.m12 + A.m02 * B.m22,
   A.m10 * B.m00 + A.m11 * B.m10 + A.m12 * B.m20,
   A.m10 * B.m01 + A.m11 * B.m11 + A.m12 * B.m21,
   A.m10 * B.m02 + A.m11 * B.m12 + A.m12 * B.m22,
   A.m20 * B.m00 + A.m21 * B.m10 + A.m22 * B.m20,
   A.m20 * B.m01 + A.m21 * B.m11 + A.m22 * B.m21,
   A.m20 * B.m02 + A.m21 * B.m12 + A.m22 * B.m22⟩

/-- Scalar multiple. -/
def smul3 (c : ℚ) (A : Mat3) : Mat3 :=
  ⟨c * A.m00, c * A.m01, c * A.m02,
   c * A.m10, c * A.m11, c * A.m12,
   c * A.m20, c * A.m21, c * A.m22⟩

/-- Determinant. -/
def det3 (A : Mat3) : ℚ :=
  A.m00 * (A.m11 * A.m22 - A.m12 * A.m21)
  - A.m01 * (A.m10 * A.m22 - A.m12 * A.m20)
  + A.m02 * (A.m10 * A.m21 - A.m11 * A.m20)

/-- Adjugate (transposed cofactor matrix). -/
def adj3 (A : Mat3) : Mat3 :=
  ⟨A.m11 * A.m22 - A.m12 * A.m21,
   -(A.m01 * A.m22 - A.m02 * A.m21),
   A.m01 * A.m12 - A.m02 * A.m11,
   -(A.m10 * A.m22 - A.m12 * A.m20),
   A.m00 * A.m22 - A.m02 * A.m20,
   -(A.m00 * A.m12 - A.m02 * A.m10),
   A.m10 * A.m21 - A.m11 * A.m20,
   -(A.m00 * A.m21 - A.m01 * A.m20),
   A.m00 * A.m11 - A.m01 * A.m10⟩

/-- Matrix inverse, `np.linalg.inv` for a 3×3 matrix.  (On a singular matrix
NumPy raises; here `(0 : ℚ)⁻¹ = 0` makes the value irrelevant, and every
theorem using `inv3` assumes `det3 ≠ 0`.) -/
def inv3 (A : Mat3) : Mat3 :=
  smul3 (det3 A)⁻¹ (adj3 A)

/-- Identity matrix. -/
def identMat : Mat3 := ⟨1, 0, 0, 0, 1, 0, 0, 0, 1⟩

/-- Axis scaling matrix (cm → output pixels). -/
def scaleMat (sx sy : ℚ) : Mat3 := ⟨sx, 0, 0, 0, sy, 0, 0, 0, 1⟩

/-- Python `dict.get` on the marker-centers mapping (id → pixel center). -/
def lookupKey (l : List (ℕ × Pt)) (k : ℕ) : Option Pt :=
  (l.find? (fun kv => kv.1 == k)).map Prod.snd

/-- The four required corner-marker identities
(src/python/aruco_calibrator.py line 33). -/
def corner_ids : List ℕ := [17, 18, 19, 20]

/-- The result tuple of ArucoCornerCalibrator.calculate_homography, without the
reprojection-error float (a mean of Euclidean norms; no claim concerns its
value, and its square root is not rational). -/
structure CalibResult where
  success : Bool
  homography : Option Mat3
  cameraMatrix : Option Mat3
  distCoeffs : Option (List ℚ)
deriving DecidableEq, Repr

/-- The failure tuple `(False, None, inf, None, None)`. -/
def calibFail : CalibResult := ⟨false, none, none, none⟩

/-- ArucoCornerCalibrator.estimate_camera_matrix
(src/python/aruco_calibrator.py lines 75-98): pinhole approximation from the
(height, width) image shape. -/
def estimate_camera_matrix (image_shape : ℕ × ℕ) : Mat3 :=
  let height : ℚ := image_shape.1
  let width : ℚ := image_shape.2
  let focal_length := width * 4/5
  ⟨focal_length, 0, width / 2, 0, focal_length, height / 2, 0, 0, 1⟩

/-- ArucoCornerCalibrator.calculate_homography
(src/python/aruco_calibrator.py lines 100-198).  The external RANSAC solver
`cv2.findHomography(src, dst)` is passed in as `fit`.  The nested match on the
four required ids encodes the `missing_ids` check of lines 126-129 (its
catch-all arm is the `return False` of that check); the length check of lines
121-123 comes first, exactly as in the source. -/
def calculate_homography (fit : List Pt → List Pt → Option Mat3)
    (marker_centers : List (ℕ × Pt)) (image_shape : ℕ × ℕ)
    (paper_size_cm : ℚ × ℚ) : CalibResult :=
  if marker_centers.length ≠ 4 then calibFail
  else
    match lookupKey marker_centers 17, lookupKey marker_centers 18,
          lookupKey marker_centers 19, lookupKey marker_centers 20 with
    | some a, some b, some c, some d =>
      let camera_matrix := estimate_camera_matrix image_shape
      let dist_coeffs : List ℚ := [0, 0, 0, 0, 0]
      let dst_points : List Pt := [a, b, c, d]
      let paper_width_cm := paper_size_cm.1
      let paper_height_cm := paper_size_cm.2
      let marker_center_offset : ℚ := 5 / 2
      let src_points : List Pt :=
        [⟨marker_center_offset, marker_center_offset⟩,
         ⟨paper_width_cm - marker_center_offset, marker_center_offset⟩,
         ⟨paper_width_cm - marker_center_offset,
          paper_height_cm - marker_center_offset⟩,
         ⟨marker_center_offset, paper_height_cm - marker_center_offset⟩]
      match fit src_points dst_points with
      | none => calibFail
      | some homography =>
        ⟨true, some homography, some camera_matrix, some dist_coeffs⟩
    | _, _, _, _ => calibFail

/-- The post-detection branch of ArucoCornerCalibrator.calibrate_from_camera
(src/python/aruco_calibrator.py lines 246-295): call calculate_homography only
when exactly 4 corner markers were detected, otherwise report failure
(`ok: False`) with no homography. -/
def calibrate_from_camera_decision (fit : List Pt → List Pt → Option Mat3)
    (marker_centers : List (ℕ × Pt)) (image_shape : ℕ × ℕ)
    (paper_size_cm : ℚ × ℚ) : CalibResult :=
  if marker_centers.length = 4 then
    calculate_homography fit marker_centers image_shape paper_size_cm
  else calibFail

/-! ## Perspective-warp invocations -/

/-- One call to `cv2.warpPerspective`: the warp matrix handed to OpenCV and the
requested output size. -/
structure WarpCall where
  matrix : Mat3
  size : ℕ × ℕ
deriving DecidableEq, Repr

/-- The warp performed by generate_rectified_image_from_frame
(src/python/rectified_preview.py lines 52-71): scale matrix S (cm → output
pixels) composed with the inverse of the stored homography H (camera pixels →
cm), at the caller-specified output size. -/
def generate_rectified_warp (H : Mat3) (output_size : ℕ × ℕ)
    (paper_size_cm : ℚ × ℚ) : WarpCall :=
  let scale_x : ℚ := (output_size.1 : ℚ) / paper_size_cm.1
  let scale_y : ℚ := (output_size.2 : ℚ) / paper_size_cm.2
  let S := scaleMat scale_x scale_y
  let H_inv := inv3 H
  ⟨mul3 S H_inv, output_size⟩

/-- The warp performed by CameraManager.rectify_image
(src/python/camera_manager.py lines 66-78): the stored homography matrix is
passed to `cv2.warpPerspective` unchanged, at the frame's own (w, h); with no
stored matrix the frame is returned unwarped (`none`). -/
def rectify_image_warp (homography_matrix : Option Mat3)
    (frame_w frame_h : ℕ) : Option WarpCall :=
  match homography_matrix with
  | none => none
  | some m => some ⟨m, (frame_w, frame_h)⟩

/-- The warp performed by validate_slot_qrs (src/python/validate_slot_qrs.py
lines 99-102): again the stored matrix H itself, at the frame's own (w, h). -/
def validate_slot_qrs_warp (H : Mat3) (frame_w frame_h : ℕ) : WarpCall :=
  ⟨H, (frame_w, frame_h)⟩

/-! ## Batch orchestration (src/python/process_cameras.py) -/

/-- The overall-status aggregation of CameraProcessor.process_all
(src/python/process_cameras.py lines 346-390): count per-camera statuses equal
to "success" against the rest, then fold into one overall status string. -/
def overall_status (camera_statuses : List String) : String :=
  let total_cameras_success := camera_statuses.countP (fun s => s == "success")
  let total_cameras_failed := camera_statuses.countP (fun s => !(s == "success"))
  if total_cameras_failed > 0 then
    if total_cameras_success = 0 then "failure" else "partial_failure"
  else "success"

/-- The exit-code dispatch of main (src/python/process_cameras.py lines
411-417). -/
def main_exit_code (overall : String) : ℕ :=
  if overall = "failure" then 1
  else if overall = "partial_failure" then 2
  else 0


/-! ## Matrix algebra lemmas -/

theorem mul3_assoc (A B C : Mat3) : mul3 (mul3 A B) C = mul3 A (mul3 B C) := by
  simp only [mul3, Mat3.mk.injEq]
  and_intros <;> ring

theorem mul3_ident_right (A : Mat3) : mul3 A identMat = A := by
  simp only [mul3, identMat, Mat3.mk.injEq]
  and_intros <;> ring

theorem smul3_mul3 (c : ℚ) (A B : Mat3) :
    mul3 (smul3 c A) B = smul3 c (mul3 A B) := by
  simp only [mul3, smul3, Mat3.mk.injEq]
  and_intros <;> ring

theorem adj3_mul3 (A : Mat3) : mul3 (adj3 A) A = smul3 (det3 A) identMat := by
  simp only [mul3, adj3, smul3, det3, identMat, Mat3.mk.injEq]
  and_intros <;> ring

theorem smul3_smul3 (a b : ℚ) (A : Mat3) :
    smul3 a (smul3 b A) = smul3 (a * b) A := by
  simp only [smul3, Mat3.mk.injEq]
  and_intros <;> ring

theorem smul3_one (A : Mat3) : smul3 1 A = A := by
  simp only [smul3, Mat3.mk.injEq]
  and_intros <;> ring

theorem inv3_mul3_cancel (A : Mat3) (hdet : det3 A ≠ 0) :
    mul3 (inv3 A) A = identMat := by
  rw [inv3, smul3_mul3, adj3_mul3, smul3_smul3, inv_mul_cancel₀ hdet, smul3_one]

/-! ## Slot-classifier claims -/

/-- Claim C1, counterexample: with expected identity "T17" and the decoded,
validated payload `{type: "slot", id: "T17"}`, CameraManager.process_slot —
one of the two classifiers the claim covers — resolves ITEM_PRESENT with no
alert, not EMPTY with alert. -/
theorem claim_C1_counterexample :
    (process_slot (some (JVal.s "T17"))
        ⟨true, [[("type", JVal.s "slot"), ("id", JVal.s "T17")]],
         false, false, 0, false, false, 0, 0⟩).status = "ITEM_PRESENT" ∧
    (process_slot (some (JVal.s "T17"))
        ⟨true, [[("type", JVal.s "slot"), ("id", JVal.s "T17")]],
         false, false, 0, false, false, 0, 0⟩).alert_triggered = false ∧
    (process_slot (some (JVal.s "T17"))
        ⟨true, [[("type", JVal.s "slot"), ("id", JVal.s "T17")]],
         false, false, 0, false, false, 0, 0⟩).status ≠ "EMPTY" := by
  decide

/-- Claim C1 (amended): in the simplified pipeline
(SlotProcessor.determine_status) a decoded payload of kind "slot" whose
identity equals the slot's expected identity resolves EMPTY with alert = true;
CameraManager.process_slot instead resolves the same input to ITEM_PRESENT
with correct_item = true and no alert. -/
theorem claim_C1_amended (j : List (String × JVal))
    (rest : List (List (String × JVal))) (scan : SlotScan) (expected : JVal)
    (hne : j ≠ [])
    (htype : lookupField j "type" = some (JVal.s "slot"))
    (hid : lookupField j "id" = some expected)
    (hroi : scan.roiOk = true)
    (hqr : scan.qr_results = j :: rest) :
    determine_status (some j) = ("EMPTY", true, none) ∧
    (process_slot (some expected) scan).status = "ITEM_PRESENT" ∧
    (process_slot (some expected) scan).alert_triggered = false ∧
    (process_slot (some expected) scan).correct_item = true := by
  refine ⟨by simp [determine_status, hne, htype], ?_, ?_, ?_⟩ <;>
  · obtain ⟨roiOk, qrs, e1, e2, se, f1, f2, sf, lv⟩ := scan
    simp only at hroi hqr
    subst hroi hqr
    simp [process_slot, initSlotResult, htype, hid]

/-- Claim C1 witness: the amended claim evaluated at the concrete scenario-B
input. -/
theorem claim_C1_witness :
    determine_status (some [("type", JVal.s "slot"), ("id", JVal.s "T17")]) =
      ("EMPTY", true, none) ∧
    (process_slot (some (JVal.s "T17"))
        ⟨true, [[("type", JVal.s "slot"), ("id", JVal.s "T17")]],
         true, true, 9/10, true, true, 1/2, 0⟩).status = "ITEM_PRESENT" ∧
    (process_slot (some (JVal.s "T17"))
        ⟨true, [[("type", JVal.s "slot"), ("id", JVal.s "T17")]],
         true, true, 9/10, true, true, 1/2, 0⟩).alert_triggered = false ∧
    (process_slot (some (JVal.s "T17"))
        ⟨true, [[("type", JVal.s "slot"), ("id", JVal.s "T17")]],
         true, true, 9/10, true, true, 1/2, 0⟩).correct_item = true :=
  claim_C1_amended [("type", JVal.s "slot"), ("id", JVal.s "T17")] []
    ⟨true, [[("type", JVal.s "slot"), ("id", JVal.s "T17")]],
     true, true, 9/10, true, true, 1/2, 0⟩ (JVal.s "T17")
    (by decide) (by decide) (by decide) rfl rfl

/-- Claim C2, counterexample: with expected identity "T17" and the decoded
payload `{type: "slot", id: "T99"}` (non-worker, identity mismatch), neither
classifier produces WRONG_ITEM: SlotProcessor.determine_status resolves EMPTY
and CameraManager.process_slot resolves ITEM_PRESENT with no alert. -/
theorem claim_C2_counterexample :
    (determine_status
        (some [("type", JVal.s "slot"), ("id", JVal.s "T99")])).1 = "EMPTY" ∧
    (determine_status
        (some [("type", JVal.s "slot"), ("id", JVal.s "T99")])).1 ≠
      "WRONG_ITEM" ∧
    (process_slot (some (JVal.s "T17"))
        ⟨true, [[("type", JVal.s "slot"), ("id", JVal.s "T99")]],
         false, false, 0, false, false, 0, 0⟩).status = "ITEM_PRESENT" ∧
    (process_slot (some (JVal.s "T17"))
        ⟨true, [[("type", JVal.s "slot"), ("id", JVal.s "T99")]],
         false, false, 0, false, false, 0, 0⟩).status ≠ "WRONG_ITEM" ∧
    (process_slot (some (JVal.s "T17"))
        ⟨true, [[("type", JVal.s "slot"), ("id", JVal.s "T99")]],
         false, false, 0, false, false, 0, 0⟩).alert_triggered = false := by
  decide

/-- Claim C2 (amended): a decoded, validated payload of kind "slot" whose
identity does not match the slot's expected identity resolves EMPTY with
alert = true in SlotProcessor.determine_status (the identity is never
compared) and ITEM_PRESENT with correct_item = false and no alert in
CameraManager.process_slot; neither classifier has a WRONG_ITEM status. -/
theorem claim_C2_amended (j : List (String × JVal))
    (rest : List (List (String × JVal))) (scan : SlotScan)
    (expected idv : JVal)
    (hne : j ≠ [])
    (htype : lookupField j "type" = some (JVal.s "slot"))
    (hid : lookupField j "id" = some idv)
    (hneq : idv ≠ expected)
    (hroi : scan.roiOk = true)
    (hqr : scan.qr_results = j :: rest) :
    determine_status (some j) = ("EMPTY", true, none) ∧
    (process_slot (some expected) scan).status = "ITEM_PRESENT" ∧
    (process_slot (some expected) scan).correct_item = false ∧
    (process_slot (some expected) scan).alert_triggered = false ∧
    (process_slot (some expected) scan).status ≠ "WRONG_ITEM" := by
  refine ⟨by simp [determine_status, hne, htype], ?_, ?_, ?_, ?_⟩ <;>
  · obtain ⟨roiOk, qrs, e1, e2, se, f1, f2, sf, lv⟩ := scan
    simp only at hroi hqr
    subst hroi hqr
    simp [process_slot, initSlotResult, htype, hid, hneq]

/-- Claim C2 witness: the amended claim evaluated at expected "T17",
payload `{type: "slot", id: "T99"}`. -/
theorem claim_C2_witness :
    determine_status (some [("type", JVal.s "slot"), ("id", JVal.s "T99")]) =
      ("EMPTY", true, none) ∧
    (process_slot (some (JVal.s "T17"))
        ⟨true, [[("type", JVal.s "slot"), ("id", JVal.s "T99")]],
         true, true, 1/4, true, true, 1/4, 0⟩).status = "ITEM_PRESENT" ∧
    (process_slot (some (JVal.s "T17"))
        ⟨true, [[("type", JVal.s "slot"), ("id", JVal.s "T99")]],
         true, true, 1/4, true, true, 1/4, 0⟩).correct_item = false ∧
    (process_slot (some (JVal.s "T17"))
        ⟨true, [[("type", JVal.s "slot"), ("id", JVal.s "T99")]],
         true, true, 1/4, true, true, 1/4, 0⟩).alert_triggered = false ∧
    (process_slot (some (JVal.s "T17"))
        ⟨true, [[("type", JVal.s "slot"), ("id", JVal.s "T99")]],
         true, true, 1/4, true, true, 1/4, 0⟩).status ≠ "WRONG_ITEM" :=
  claim_C2_amended [("type", JVal.s "slot"), ("id", JVal.s "T99")] []
    ⟨true, [[("type", JVal.s "slot"), ("id", JVal.s "T99")]],
     true, true, 1/4, true, true, 1/4, 0⟩ (JVal.s "T17") (JVal.s "T99")
    (by decide) (by decide) (by decide) (by decide) rfl rfl

/-- Claim C3: a decoded, validated payload of kind "worker" resolves
CHECKED_OUT with no alert in both classifiers, carrying the worker's display
name, for every combination of baselines and similarity scores in the scan. -/
theorem claim_C3_holds (j : List (String × JVal))
    (rest : List (List (String × JVal))) (scan : SlotScan)
    (expected : Option JVal) (wname : JVal)
    (hne : j ≠ [])
    (htype : lookupField j "type" = some (JVal.s "worker"))
    (hw : lookupField j "worker_name" = some wname)
    (hroi : scan.roiOk = true)
    (hqr : scan.qr_results = j :: rest) :
    determine_status (some j) = ("CHECKED_OUT", false, some wname) ∧
    (process_slot expected scan).status = "CHECKED_OUT" ∧
    (process_slot expected scan).alert_triggered = false ∧
    (process_slot expected scan).worker_name = some wname := by
  refine ⟨by simp [determine_status, hne, htype, hw], ?_, ?_, ?_⟩ <;>
  · obtain ⟨roiOk, qrs, e1, e2, se, f1, f2, sf, lv⟩ := scan
    simp only at hroi hqr
    subst hroi hqr
    simp [process_slot, initSlotResult, htype, hw]

/-- Claim C3 witness: scenario C, payload
`{type: "worker", worker_name: "Alice", id: "W1"}` with arbitrary similarity
scores alongside. -/
theorem claim_C3_witness :
    determine_status
        (some [("type", JVal.s "worker"), ("worker_name", JVal.s "Alice"),
               ("id", JVal.s "W1")]) =
      ("CHECKED_OUT", false, some (JVal.s "Alice")) ∧
    (process_slot (some (JVal.s "T17"))
        ⟨true, [[("type", JVal.s "worker"), ("worker_name", JVal.s "Alice"),
                 ("id", JVal.s "W1")]],
         true, true, 99/100, true, true, 99/100, 0⟩).status = "CHECKED_OUT" ∧
    (process_slot (some (JVal.s "T17"))
        ⟨true, [[("type", JVal.s "worker"), ("worker_name", JVal.s "Alice"),
                 ("id", JVal.s "W1")]],
         true, true, 99/100, true, true, 99/100, 0⟩).alert_triggered = false ∧
    (process_slot (some (JVal.s "T17"))
        ⟨true, [[("type", JVal.s "worker"), ("worker_name", JVal.s "Alice"),
                 ("id", JVal.s "W1")]],
         true, true, 99/100, true, true, 99/100,
         0⟩).worker_name = some (JVal.s "Alice") :=
  claim_C3_holds
    [("type", JVal.s "worker"), ("worker_name", JVal.s "Alice"),
     ("id", JVal.s "W1")] []
    ⟨true, [[("type", JVal.s "worker"), ("worker_name", JVal.s "Alice"),
             ("id", JVal.s "W1")]],
     true, true, 99/100, true, true, 99/100, 0⟩
    (some (JVal.s "T17")) (JVal.s "Alice")
    (by decide) (by decide) (by decide) rfl rfl

/-- Claim C4, counterexample: with no decodable payload and
similarity-to-empty 0.91 over an existing empty baseline,
CameraManager.process_slot resolves EMPTY but leaves the alert flag false —
the claim asserts the alert flag is true. -/
theorem claim_C4_counterexample :
    (process_slot none
        ⟨true, [], true, true, 91/100, false, false, 0, 0⟩).status = "EMPTY" ∧
    (process_slot none
        ⟨true, [], true, true, 91/100, false, false, 0,
         0⟩).alert_triggered = false := by
  constructor <;> norm_num [process_slot, initSlotResult]

/-- Claim C4 (amended): with no decodable payload and a similarity score
against the stored "empty" baseline exceeding the code's threshold 0.8 (the
spec's "≈0.85"), the resolved status is EMPTY with present = false, but the
alert flag is false (the source raises an alert only in the OCCUPIED_NO_QR
branch). -/
theorem claim_C4_amended (scan : SlotScan) (expected : Option JVal)
    (hroi : scan.roiOk = true)
    (hqr : scan.qr_results = [])
    (hex : scan.emptyBaselineExists = true)
    (hld : scan.emptyBaselineLoaded = true)
    (hgt : scan.s_empty_score > 4/5) :
    (process_slot expected scan).status = "EMPTY" ∧
    (process_slot expected scan).present = false ∧
    (process_slot expected scan).alert_triggered = false := by
  obtain ⟨roiOk, qrs, e1, e2, se, f1, f2, sf, lv⟩ := scan
  simp only at hroi hqr hex hld hgt
  subst hroi hqr hex hld
  simp [process_slot, initSlotResult, hgt]

/-- Claim C4 witness: the amended claim evaluated at scenario D
(similarityEmpty = 0.91). -/
theorem claim_C4_witness :
    (process_slot none
        ⟨true, [], true, true, 91/100, true, true, 1/2,
         0⟩).status = "EMPTY" ∧
    (process_slot none
        ⟨true, [], true, true, 91/100, true, true, 1/2,
         0⟩).present = false ∧
    (process_slot none
        ⟨true, [], true, true, 91/100, true, true, 1/2,
         0⟩).alert_triggered = false :=
  claim_C4_amended
    ⟨true, [], true, true, 91/100, true, true, 1/2, 0⟩ none
    rfl rfl rfl rfl (by norm_num)

/-- Claim C5, counterexample: with no decodable payload and no baseline images
configured, CameraManager.process_slot resolves UNCALIBRATED_EMPTY, not the
ITEM_PRESENT the claim asserts. -/
theorem claim_C5_counterexample :
    (process_slot none
        ⟨true, [], false, false, 0, false, false, 0,
         0⟩).status = "UNCALIBRATED_EMPTY" ∧
    (process_slot none
        ⟨true, [], false, false, 0, false, false, 0,
         0⟩).status ≠ "ITEM_PRESENT" := by
  decide

/-- Claim C5 (amended): with no decodable payload,
SlotProcessor.determine_status resolves ITEM_PRESENT with no alert
(it consults no baselines at all), while CameraManager.process_slot with no
baseline images configured resolves UNCALIBRATED_EMPTY with no alert; neither
resolves EMPTY. -/
theorem claim_C5_amended (scan : SlotScan) (expected : Option JVal)
    (hroi : scan.roiOk = true)
    (hqr : scan.qr_results = [])
    (hex : scan.emptyBaselineExists = false)
    (hfx : scan.fullBaselineExists = false) :
    determine_status none = ("ITEM_PRESENT", false, none) ∧
    (process_slot expected scan).status = "UNCALIBRATED_EMPTY" ∧
    (process_slot expected scan).alert_triggered = false ∧
    (process_slot expected scan).status ≠ "EMPTY" := by
  obtain ⟨roiOk, qrs, e1, e2, se, f1, f2, sf, lv⟩ := scan
  simp only at hroi hqr hex hfx
  subst hroi hqr hex hfx
  refine ⟨rfl, ?_, ?_, ?_⟩ <;> simp [process_slot, initSlotResult]

/-- Claim C5 witness: the amended claim evaluated at scenario E (no payload,
no baselines). -/
theorem claim_C5_witness :
    determine_status none = ("ITEM_PRESENT", false, none) ∧
    (process_slot none
        ⟨true, [], false, false, 0, false, false, 0,
         0⟩).status = "UNCALIBRATED_EMPTY" ∧
    (process_slot none
        ⟨true, [], false, false, 0, false, false, 0,
         0⟩).alert_triggered = false ∧
    (process_slot none
        ⟨true, [], false, false, 0, false, false, 0,
         0⟩).status ≠ "EMPTY" :=
  claim_C5_amended ⟨true, [], false, false, 0, false, false, 0, 0⟩ none
    rfl rfl rfl rfl

/-! ## Calibration claim -/

/-- A successful key lookup means the key occurs in the mapping. -/
theorem lookupKey_some_mem {l : List (ℕ × Pt)} {k : ℕ} {p : Pt}
    (h : lookupKey l k = some p) : k ∈ l.map Prod.fst := by
  rcases hf : l.find? (fun kv => kv.1 == k) with _ | kv
  · rw [lookupKey, hf] at h
    simp at h
  · have hm := List.mem_of_find?_eq_some hf
    have hp := List.find?_some hf
    simp only [beq_iff_eq] at hp
    exact List.mem_map.mpr ⟨kv, hm, hp⟩

/-- Claim C6: for every marker-centers mapping whose key set is not exactly
the required corner-marker identities 17, 18, 19, 20, both
calculate_homography and the calibrate_from_camera decision return failure
(success = false) with no homography — for every solver `fit`, image shape
and paper size. -/
theorem claim_C6_holds (fit : List Pt → List Pt → Option Mat3)
    (mc : List (ℕ × Pt)) (image_shape : ℕ × ℕ) (paper : ℚ × ℚ)
    (hnd : (mc.map Prod.fst).Nodup)
    (hne : (mc.map Prod.fst).toFinset ≠ ({17, 18, 19, 20} : Finset ℕ)) :
    (calculate_homography fit mc image_shape paper).success = false ∧
    (calculate_homography fit mc image_shape paper).homography = none ∧
    (calibrate_from_camera_decision fit mc image_shape paper).success = false ∧
    (calibrate_from_camera_decision fit mc image_shape paper).homography =
      none := by
  by_cases hlen : mc.length = 4
  · have hfail : calculate_homography fit mc image_shape paper = calibFail := by
      rcases e17 : lookupKey mc 17 with _ | a
      · simp [calculate_homography, hlen, e17]
      · rcases e18 : lookupKey mc 18 with _ | b
        · simp [calculate_homography, hlen, e17, e18]
        · rcases e19 : lookupKey mc 19 with _ | c
          · simp [calculate_homography, hlen, e17, e18, e19]
          · rcases e20 : lookupKey mc 20 with _ | d
            · simp [calculate_homography, hlen, e17, e18, e19, e20]
            · exfalso
              apply hne
              have hsub : ({17, 18, 19, 20} : Finset ℕ) ⊆
                  (mc.map Prod.fst).toFinset := by
                intro i hi
                simp only [Finset.mem_insert, Finset.mem_singleton] at hi
                rw [List.mem_toFinset]
                rcases hi with h | h | h | h <;> subst h
                · exact lookupKey_some_mem e17
                · exact lookupKey_some_mem e18
                · exact lookupKey_some_mem e19
                · exact lookupKey_some_mem e20
              have hcard : (mc.map Prod.fst).toFinset.card = 4 := by
                rw [List.toFinset_card_of_nodup hnd, List.length_map, hlen]
              exact (Finset.eq_of_subset_of_card_le hsub
                (by rw [hcard]; decide)).symm
    rw [hfail, calibrate_from_camera_decision, if_pos hlen, hfail]
    exact ⟨rfl, rfl, rfl, rfl⟩
  · have h1 : calculate_homography fit mc image_shape paper = calibFail := by
      rw [calculate_homography, if_pos hlen]
    rw [h1, calibrate_from_camera_decision, if_neg hlen]
    exact ⟨rfl, rfl, rfl, rfl⟩

/-- Claim C6 witness: a three-marker mapping (id 20 missing) is rejected by
both entry points, for a solver that would otherwise succeed. -/
theorem claim_C6_witness :
    (calculate_homography (fun _ _ => some identMat)
        [(17, ⟨100, 100⟩), (18, ⟨1800, 100⟩), (19, ⟨1800, 1000⟩)]
        (1080, 1920) (297/10, 21)).success = false ∧
    (calculate_homography (fun _ _ => some identMat)
        [(17, ⟨100, 100⟩), (18, ⟨1800, 100⟩), (19, ⟨1800, 1000⟩)]
        (1080, 1920) (297/10, 21)).homography = none ∧
    (calibrate_from_camera_decision (fun _ _ => some identMat)
        [(17, ⟨100, 100⟩), (18, ⟨1800, 100⟩), (19, ⟨1800, 1000⟩)]
        (1080, 1920) (297/10, 21)).success = false ∧
    (calibrate_from_camera_decision (fun _ _ => some identMat)
        [(17, ⟨100, 100⟩), (18, ⟨1800, 100⟩), (19, ⟨1800, 1000⟩)]
        (1080, 1920) (297/10, 21)).homography = none :=
  claim_C6_holds (fun _ _ => some identMat)
    [(17, ⟨100, 100⟩), (18, ⟨1800, 100⟩), (19, ⟨1800, 1000⟩)]
    (1080, 1920) (297/10, 21) (by decide) (by decide)

/-! ## QR validation claims -/

/-- Claim C7: a structurally valid payload carrying an `hmac` field is
accepted exactly when the recomputed digest over the sorted-key JSON
serialization of the remaining fields equals the provided value, and on
mismatch the payload is excluded from every detect_qr_codes result — for
every digest function `mac`. -/
theorem claim_C7_holds (mac : String → String) (p : List (String × JVal))
    (provided : String)
    (hreq : required_fields.all (fun f => hasKey p f) = true)
    (htype : lookupField p "type" = some (JVal.s "slot") ∨
             lookupField p "type" = some (JVal.s "worker"))
    (hh : lookupField p "hmac" = some (JVal.s provided)) :
    (validate_qr_data mac p = true ↔
      mac (canonical_json (removeKey p "hmac")) = provided) ∧
    (mac (canonical_json (removeKey p "hmac")) ≠ provided →
      ∀ ds, p ∉ detect_qr_codes mac ds) := by
  have hk : hasKey p "hmac" = true := by rw [hasKey, hh]; rfl
  have hv : validate_qr_data mac p =
      (mac (canonical_json (removeKey p "hmac")) == provided) := by
    rw [validate_qr_data, if_pos hreq, if_pos htype, if_pos hk,
      verify_hmac_signature, hh]
  constructor
  · rw [hv]
    exact beq_iff_eq
  · intro hneq ds hmem
    have hval := (List.mem_filter.mp hmem).2
    rw [hv] at hval
    exact hneq (beq_iff_eq.mp hval)

/-- Claim C7 witness: a concrete signed payload under the digest function that
returns "sig" on every message. -/
theorem claim_C7_witness :
    (validate_qr_data (fun _ => "sig")
        [("type", JVal.s "slot"), ("id", JVal.s "T1"),
         ("version", JVal.s "1.0"), ("ts", JVal.n 0),
         ("hmac", JVal.s "sig")] = true ↔
      (fun _ => "sig")
          (canonical_json
            (removeKey
              [("type", JVal.s "slot"), ("id", JVal.s "T1"),
               ("version", JVal.s "1.0"), ("ts", JVal.n 0),
               ("hmac", JVal.s "sig")] "hmac")) = "sig") ∧
    ((fun _ => "sig")
          (canonical_json
            (removeKey
              [("type", JVal.s "slot"), ("id", JVal.s "T1"),
               ("version", JVal.s "1.0"), ("ts", JVal.n 0),
               ("hmac", JVal.s "sig")] "hmac")) ≠ "sig" →
      ∀ ds,
        [("type", JVal.s "slot"), ("id", JVal.s "T1"),
         ("version", JVal.s "1.0"), ("ts", JVal.n 0),
         ("hmac", JVal.s "sig")] ∉ detect_qr_codes (fun _ => "sig") ds) :=
  claim_C7_holds (fun _ => "sig")
    [("type", JVal.s "slot"), ("id", JVal.s "T1"),
     ("version", JVal.s "1.0"), ("ts", JVal.n 0), ("hmac", JVal.s "sig")]
    "sig" (by decide) (Or.inl (by decide)) (by decide)

/-- Claim C10: a payload with all required structural fields, a type in
{slot, worker} and no `hmac` field is accepted by _validate_qr_data for every
digest function: absent signatures never cause rejection. -/
theorem claim_C10_holds (mac : String → String) (p : List (String × JVal))
    (hreq : required_fields.all (fun f => hasKey p f) = true)
    (htype : lookupField p "type" = some (JVal.s "slot") ∨
             lookupField p "type" = some (JVal.s "worker"))
    (hnoh : hasKey p "hmac" = false) :
    validate_qr_data mac p = true := by
  rw [validate_qr_data, if_pos hreq, if_pos htype,
    if_neg (by rw [hnoh]; exact Bool.false_ne_true)]

/-- Claim C10 witness: a concrete unsigned worker payload. -/
theorem claim_C10_witness :
    validate_qr_data (fun _ => "")
      [("type", JVal.s "worker"), ("id", JVal.s "W1"),
       ("version", JVal.s "1.0"), ("ts", JVal.n 1700000000),
       ("worker_name", JVal.s "Alice")] = true :=
  claim_C10_holds (fun _ => "")
    [("type", JVal.s "worker"), ("id", JVal.s "W1"),
     ("version", JVal.s "1.0"), ("ts", JVal.n 1700000000),
     ("worker_name", JVal.s "Alice")]
    (by decide) (Or.inr (by decide)) (by decide)

/-! ## Batch exit-code claim -/

/-- Claim C8: the batch exit code is 0 when every processed camera status is
"success", 2 when both a success and a failure occur, and 1 when the batch is
nonempty and every camera failed. -/
theorem claim_C8_holds (camera_statuses : List String) :
    ((∀ s ∈ camera_statuses, s = "success") →
      main_exit_code (overall_status camera_statuses) = 0) ∧
    ((∃ s ∈ camera_statuses, s = "success") →
     (∃ s ∈ camera_statuses, s ≠ "success") →
      main_exit_code (overall_status camera_statuses) = 2) ∧
    (camera_statuses ≠ [] →
     (∀ s ∈ camera_statuses, s ≠ "success") →
      main_exit_code (overall_status camera_statuses) = 1) := by
  refine ⟨?_, ?_, ?_⟩
  · intro h
    have hzero : camera_statuses.countP (fun s => !(s == "success")) = 0 := by
      rw [List.countP_eq_zero]
      intro a ha
      simp [h a ha]
    simp [overall_status, main_exit_code, hzero]
  · rintro ⟨a, ha, hs⟩ ⟨b, hb, hf⟩
    have h1 : 0 < camera_statuses.countP (fun s => !(s == "success")) := by
      rw [List.countP_pos_iff]
      exact ⟨b, hb, by simp [hf]⟩
    have h2 : 0 < camera_statuses.countP (fun s => s == "success") := by
      rw [List.countP_pos_iff]
      exact ⟨a, ha, by simp [hs]⟩
    simp [overall_status, main_exit_code, h1, Nat.pos_iff_ne_zero.mp h2]
  · intro hne h
    have h1 : 0 < camera_statuses.countP (fun s => !(s == "success")) := by
      rw [List.countP_pos_iff]
      rcases List.exists_mem_of_ne_nil camera_statuses hne with ⟨a, ha⟩
      exact ⟨a, ha, by simp [h a ha]⟩
    have h2 : camera_statuses.countP (fun s => s == "success") = 0 := by
      rw [List.countP_eq_zero]
      intro a ha
      simp [h a ha]
    simp [overall_status, main_exit_code, h1, h2]

/-- Claim C8 witness: the three exit codes at concrete batches. -/
theorem claim_C8_witness :
    main_exit_code (overall_status ["success", "success"]) = 0 ∧
    main_exit_code (overall_status ["success", "failed"]) = 2 ∧
    main_exit_code (overall_status ["failed"]) = 1 :=
  ⟨(claim_C8_holds ["success", "success"]).1 (by decide),
   (claim_C8_holds ["success", "failed"]).2.1
     ⟨"success", by decide, by decide⟩ ⟨"failed", by decide, by decide⟩,
   (claim_C8_holds ["failed"]).2.2 (by decide) (by decide)⟩

/-! ## Rectification-warp claim -/

/-- Claim C9, counterexample: with the stored homography H = identity (an
invertible matrix), CameraManager.rectify_image and validate_slot_qrs pass H
itself to the warp at the frame's own resolution, while the S·H⁻¹ matrix of
generate_rectified_image_from_frame differs from H — so "the warp matrix
applied equals S·H⁻¹, never H itself" fails at the two cited call sites that
use H directly. -/
theorem claim_C9_counterexample :
    rectify_image_warp (some identMat) 1920 1080 =
      some ⟨identMat, (1920, 1080)⟩ ∧
    validate_slot_qrs_warp identMat 1920 1080 = ⟨identMat, (1920, 1080)⟩ ∧
    (generate_rectified_warp identMat (800, 600) (297/10, 21)).matrix ≠
      identMat := by
  refine ⟨rfl, rfl, ?_⟩
  norm_num [generate_rectified_warp, identMat, scaleMat, inv3, smul3, adj3,
    det3, mul3, Mat3.mk.injEq]

/-- Claim C9 (amended): generate_rectified_image_from_frame warps by S·H⁻¹ at
the caller-specified output size — composed with H it is exactly the
cm-to-output-pixel scaling S — whereas CameraManager.rectify_image and
validate_slot_qrs pass the stored H itself to the warp at the frame's own
resolution. -/
theorem claim_C9_holds (H : Mat3) (output_size : ℕ × ℕ) (paper : ℚ × ℚ)
    (frame_w frame_h : ℕ) (hdet : det3 H ≠ 0) :
    mul3 (generate_rectified_warp H output_size paper).matrix H =
      scaleMat ((output_size.1 : ℚ) / paper.1)
        ((output_size.2 : ℚ) / paper.2) ∧
    (generate_rectified_warp H output_size paper).size = output_size ∧
    rectify_image_warp (some H) frame_w frame_h =
      some ⟨H, (frame_w, frame_h)⟩ ∧
    validate_slot_qrs_warp H frame_w frame_h = ⟨H, (frame_w, frame_h)⟩ := by
  refine ⟨?_, rfl, rfl, rfl⟩
  show mul3 (mul3 (scaleMat _ _) (inv3 H)) H = _
  rw [mul3_assoc, inv3_mul3_cancel H hdet, mul3_ident_right]

/-- Claim C9 witness: the amended claim evaluated at the invertible stored
homography diag(2, 3, 1), output 800×600, paper 20×30 cm, frame 1920×1080. -/
theorem claim_C9_witness :
    mul3 (generate_rectified_warp ⟨2, 0, 0, 0, 3, 0, 0, 0, 1⟩ (800, 600)
        (20, 30)).matrix ⟨2, 0, 0, 0, 3, 0, 0, 0, 1⟩ =
      scaleMat (((800 : ℕ) : ℚ) / 20) (((600 : ℕ) : ℚ) / 30) ∧
    (generate_rectified_warp ⟨2, 0, 0, 0, 3, 0, 0, 0, 1⟩ (800, 600)
        (20, 30)).size = (800, 600) ∧
    rectify_image_warp (some ⟨2, 0, 0, 0, 3, 0, 0, 0, 1⟩) 1920 1080 =
      some ⟨⟨2, 0, 0, 0, 3, 0, 0, 0, 1⟩, (1920, 1080)⟩ ∧
    validate_slot_qrs_warp ⟨2, 0, 0, 0, 3, 0, 0, 0, 1⟩ 1920 1080 =
      ⟨⟨2, 0, 0, 0, 3, 0, 0, 0, 1⟩, (1920, 1080)⟩ :=
  claim_C9_holds ⟨2, 0, 0, 0, 3, 0, 0, 0, 1⟩ (800, 600) (20, 30) 1920 1080
    (by norm_num [det3])
